import Mathlib

/-!
Verification of the satellite-data components of the GRIT climate-risk
repository: the satellite data generator (`fetchSatelliteData` and the
`ingest-satellite-data` handler), the Pub/Sub webhook adapter
(`satellite-webhook`), and the persistence round-trip through the
`satellite_data` table's DECIMAL columns.

Numbers are embedded as rationals.  JavaScript's `Math.round` is
`jsRound` (round half toward positive infinity), and the unseeded
`Math.random()` stream is an explicit parameter `rnd : ℕ → ℚ` consumed
sequentially, with the hypothesis `0 ≤ rnd n < 1` where a claim needs it.
-/

set_option autoImplicit false

/-- JavaScript `Math.round`: nearest integer, ties toward positive infinity. -/
def jsRound (x : ℚ) : ℤ := ⌊x + 1/2⌋

/-- `Math.round(x * 100) / 100`, the two-decimal rounding applied to each
stored measurement in `fetchSatelliteData`. -/
def round2 (x : ℚ) : ℚ := (jsRound (x * 100) : ℚ) / 100

/-- `Math.min(100, Math.max(0, x))` as used for every risk indicator. -/
def clamp100 (x : ℚ) : ℚ := min 100 (max 0 x)

/-- the `risk_indicators` JSONB object of a satellite data point. -/
structure RiskIndicators where
  flood_risk : ℤ
  drought_risk : ℤ
  wildfire_risk : ℤ
  storm_risk : ℤ
deriving DecidableEq

/-- one element of the `SatelliteDataPoint[]` array built by
`fetchSatelliteData` (supabase/functions/ingest-satellite-data). -/
structure SatelliteDataPoint where
  latitude : ℚ
  longitude : ℚ
  acquisition_time : String
  cloud_coverage : ℚ
  vegetation_index : ℚ
  water_index : ℚ
  temperature : ℚ
  risk_indicators : RiskIndicators
  source : String
deriving DecidableEq

/-- `const radius = 0.045` in `fetchSatelliteData`. -/
def radius : ℚ := 0.045

/-- `const gridSize = 7` in `fetchSatelliteData`. -/
def gridSize : ℕ := 7

/-- `const step = (radius * 2) / (gridSize - 1)` in `fetchSatelliteData`. -/
def step : ℚ := (radius * 2) / 6

/-- body of the double loop in `fetchSatelliteData`: the point for lattice
cell `(i, j)`, given the five `Math.random()` draws `r1 .. r5` that the
iteration consumes (cloud coverage, vegetation index, water index,
temperature, and the extra storm-risk draw, in source order). -/
def mkPoint (lat lng : ℚ) (i j : ℕ) (r1 r2 r3 r4 r5 : ℚ) (now : String) :
    SatelliteDataPoint :=
  let pointLat := lat - radius + i * step
  let pointLng := lng - radius + j * step
  let cloudCoverage := r1 * 30
  let vegetationIndex := 0.2 + r2 * 0.6
  let waterIndex := -0.3 + r3 * 0.5
  let temperature := 15 + r4 * 15
  let floodRisk := clamp100 ((waterIndex + 0.3) * 100 + (100 - cloudCoverage) * 0.3)
  let droughtRisk := clamp100 ((1 - vegetationIndex) * 100)
  let wildfireRisk := clamp100 (temperature * 2 + (1 - vegetationIndex) * 50)
  let stormRisk := clamp100 (cloudCoverage * 2 + r5 * 30)
  { latitude := pointLat
    longitude := pointLng
    acquisition_time := now
    cloud_coverage := round2 cloudCoverage
    vegetation_index := round2 vegetationIndex
    water_index := round2 waterIndex
    temperature := round2 temperature
    risk_indicators :=
      { flood_risk := jsRound floodRisk
        drought_risk := jsRound droughtRisk
        wildfire_risk := jsRound wildfireRisk
        storm_risk := jsRound stormRisk }
    source := "copernicus-simulated" }

/-- `fetchSatelliteData(lat, lng, token)`: the 7×7 grid of simulated points.
The `Math.random()` stream is `rnd`, consumed five draws per point in loop
order (`i` outer, `j` inner), so the point at cell `(i, j)` consumes draws
`5*(7*i+j)` through `5*(7*i+j)+4`. -/
def fetchSatelliteData (lat lng : ℚ) (rnd : ℕ → ℚ) (now : String) :
    List SatelliteDataPoint :=
  (List.range gridSize).flatMap fun i =>
    (List.range gridSize).map fun j =>
      mkPoint lat lng i j
        (rnd (5 * (7 * i + j))) (rnd (5 * (7 * i + j) + 1))
        (rnd (5 * (7 * i + j) + 2)) (rnd (5 * (7 * i + j) + 3))
        (rnd (5 * (7 * i + j) + 4)) now

lemma fetch_eq_map (lat lng : ℚ) (rnd : ℕ → ℚ) (now : String) :
    fetchSatelliteData lat lng rnd now =
      (List.range 49).map fun k =>
        mkPoint lat lng (k / 7) (k % 7)
          (rnd (5 * k)) (rnd (5 * k + 1)) (rnd (5 * k + 2))
          (rnd (5 * k + 3)) (rnd (5 * k + 4)) now := by
  rfl

lemma fetch_length (lat lng : ℚ) (rnd : ℕ → ℚ) (now : String) :
    (fetchSatelliteData lat lng rnd now).length = 49 := by
  rw [fetch_eq_map]; simp

lemma mkPoint_mem_fetch (lat lng : ℚ) (rnd : ℕ → ℚ) (now : String)
    (i j : ℕ) (hi : i < 7) (hj : j < 7) :
    mkPoint lat lng i j
      (rnd (5 * (7 * i + j))) (rnd (5 * (7 * i + j) + 1))
      (rnd (5 * (7 * i + j) + 2)) (rnd (5 * (7 * i + j) + 3))
      (rnd (5 * (7 * i + j) + 4)) now ∈ fetchSatelliteData lat lng rnd now := by
  unfold fetchSatelliteData
  exact List.mem_flatMap.mpr
    ⟨i, List.mem_range.mpr hi, List.mem_map.mpr ⟨j, List.mem_range.mpr hj, rfl⟩⟩

lemma mem_fetch_elim {lat lng : ℚ} {rnd : ℕ → ℚ} {now : String}
    {p : SatelliteDataPoint} (hp : p ∈ fetchSatelliteData lat lng rnd now) :
    ∃ i j, i < 7 ∧ j < 7 ∧
      p = mkPoint lat lng i j
        (rnd (5 * (7 * i + j))) (rnd (5 * (7 * i + j) + 1))
        (rnd (5 * (7 * i + j) + 2)) (rnd (5 * (7 * i + j) + 3))
        (rnd (5 * (7 * i + j) + 4)) now := by
  unfold fetchSatelliteData at hp
  obtain ⟨i, hi, hp⟩ := List.mem_flatMap.mp hp
  obtain ⟨j, hj, hp⟩ := List.mem_map.mp hp
  exact ⟨i, j, List.mem_range.mp hi, List.mem_range.mp hj, hp.symm⟩

lemma jsRound_bounds (x : ℚ) (lo hi : ℤ) (h1 : (lo : ℚ) - 1/2 ≤ x)
    (h2 : x < (hi : ℚ) + 1/2) : lo ≤ jsRound x ∧ jsRound x ≤ hi := by
  constructor
  · exact Int.le_floor.mpr (by linarith)
  · have h : jsRound x < hi + 1 := Int.floor_lt.mpr (by push_cast; linarith)
    omega

lemma round2_bounds (x : ℚ) (lo hi : ℤ) (h1 : (lo : ℚ) ≤ x * 100)
    (h2 : x * 100 < hi) :
    (lo : ℚ) / 100 ≤ round2 x ∧ round2 x ≤ (hi : ℚ) / 100 := by
  have hb := jsRound_bounds (x * 100) lo hi (by linarith) (by linarith)
  have c1 : (lo : ℚ) ≤ (jsRound (x * 100) : ℚ) := by exact_mod_cast hb.1
  have c2 : ((jsRound (x * 100) : ℚ)) ≤ (hi : ℚ) := by exact_mod_cast hb.2
  unfold round2
  constructor <;> linarith

lemma clamp100_bounds (x : ℚ) : 0 ≤ clamp100 x ∧ clamp100 x ≤ 100 := by
  unfold clamp100
  exact ⟨le_min (by norm_num) (le_max_left 0 x), min_le_left _ _⟩

lemma riskRound_bounds (x : ℚ) :
    0 ≤ jsRound (clamp100 x) ∧ jsRound (clamp100 x) ≤ 100 := by
  obtain ⟨h0, h1⟩ := clamp100_bounds x
  exact jsRound_bounds (clamp100 x) 0 100 (by push_cast; linarith)
    (by push_cast; linarith)

/-- `clamp(lo, hi, x)` as the spec writes it. -/
def clampSpec (lo hi x : ℚ) : ℚ := max lo (min hi x)

/-- rounding to the nearest integer, as the spec writes it. -/
def roundNearest (x : ℚ) : ℤ := ⌊x + 1/2⌋

/-- the spec's four closed-form risk-indicator combinations of the draws,
each clamped to [0, 100] and then rounded to the nearest integer.  Stated
from the spec's formulas, to be compared with the code's `mkPoint`. -/
def specRiskIndicators (cloud veg water temp u : ℚ) : RiskIndicators :=
  { flood_risk := roundNearest (clampSpec 0 100 ((water + 0.3) * 100 + (100 - cloud) * 0.3))
    drought_risk := roundNearest (clampSpec 0 100 ((1 - veg) * 100))
    wildfire_risk := roundNearest (clampSpec 0 100 (temp * 2 + (1 - veg) * 50))
    storm_risk := roundNearest (clampSpec 0 100 (cloud * 2 + u)) }

lemma clamp100_eq_clampSpec (x : ℚ) : clamp100 x = clampSpec 0 100 x := by
  unfold clamp100 clampSpec
  simp only [min_def, max_def]
  split_ifs <;> linarith

lemma get_fetch (lat lng : ℚ) (rnd : ℕ → ℚ) (now : String) (m : ℕ)
    (h : m < (fetchSatelliteData lat lng rnd now).length) :
    (fetchSatelliteData lat lng rnd now).get ⟨m, h⟩ =
      mkPoint lat lng (m / 7) (m % 7) (rnd (5 * m)) (rnd (5 * m + 1))
        (rnd (5 * m + 2)) (rnd (5 * m + 3)) (rnd (5 * m + 4)) now := by
  rw [List.get_of_eq (fetch_eq_map lat lng rnd now)]
  simp [List.get_eq_getElem, List.getElem_map, List.getElem_range]

/-- C1: the risk indicators of every generated satellite point are exactly
the spec's fixed closed-form combinations of that point's four uniform
draws (cloud coverage `r*30`, vegetation index `0.2 + r*0.6`, water index
`-0.3 + r*0.5`, temperature `15 + r*15`) plus a fresh storm draw `r*30`,
each clamped to [0, 100] and then rounded to the nearest integer. -/
theorem c1_risk_indicator_formulas (lat lng : ℚ) (rnd : ℕ → ℚ) (now : String)
    (k : ℕ) (hk : k < (fetchSatelliteData lat lng rnd now).length) :
    ((fetchSatelliteData lat lng rnd now).get ⟨k, hk⟩).risk_indicators =
      specRiskIndicators (rnd (5 * k) * 30) (0.2 + rnd (5 * k + 1) * 0.6)
        (-0.3 + rnd (5 * k + 2) * 0.5) (15 + rnd (5 * k + 3) * 15)
        (rnd (5 * k + 4) * 30) := by
  rw [get_fetch]
  simp only [mkPoint, specRiskIndicators, roundNearest, jsRound,
    clamp100_eq_clampSpec]

/-- a fixed `Math.random()` stream used for concrete witnesses. -/
def rndHalf : ℕ → ℚ := fun _ => 1/2

/-- the lattice cell (0,0) point generated for New York under `rndHalf`. -/
def samplePoint : SatelliteDataPoint :=
  mkPoint 40.7128 (-74.006) 0 0 (1/2) (1/2) (1/2) (1/2) (1/2) "t0"

lemma samplePoint_mem :
    samplePoint ∈ fetchSatelliteData 40.7128 (-74.006) rndHalf "t0" :=
  mkPoint_mem_fetch 40.7128 (-74.006) rndHalf "t0" 0 0 (by norm_num) (by norm_num)

theorem c1_witness :
    ((fetchSatelliteData 40.7128 (-74.006) rndHalf "t0").get
        ⟨0, by rw [fetch_length]; norm_num⟩).risk_indicators =
      specRiskIndicators (rndHalf 0 * 30) (0.2 + rndHalf 1 * 0.6)
        (-0.3 + rndHalf 2 * 0.5) (15 + rndHalf 3 * 15) (rndHalf 4 * 30) :=
  c1_risk_indicator_formulas 40.7128 (-74.006) rndHalf "t0" 0
    (by rw [fetch_length]; norm_num)

/-- C2: whatever the uniform draws are, every generated (and hence every
persisted) satellite point has cloud_coverage in [0,30], vegetation_index
in [0.2,0.8], water_index in [-0.3,0.2], temperature in [15,30], and all
four risk indicators in [0,100]. -/
theorem c2_range_invariants (lat lng : ℚ) (rnd : ℕ → ℚ) (now : String)
    (hr : ∀ n, 0 ≤ rnd n ∧ rnd n < 1)
    (p : SatelliteDataPoint) (hp : p ∈ fetchSatelliteData lat lng rnd now) :
    (0 ≤ p.cloud_coverage ∧ p.cloud_coverage ≤ 30) ∧
    (0.2 ≤ p.vegetation_index ∧ p.vegetation_index ≤ 0.8) ∧
    (-0.3 ≤ p.water_index ∧ p.water_index ≤ 0.2) ∧
    (15 ≤ p.temperature ∧ p.temperature ≤ 30) ∧
    (0 ≤ p.risk_indicators.flood_risk ∧ p.risk_indicators.flood_risk ≤ 100) ∧
    (0 ≤ p.risk_indicators.drought_risk ∧ p.risk_indicators.drought_risk ≤ 100) ∧
    (0 ≤ p.risk_indicators.wildfire_risk ∧ p.risk_indicators.wildfire_risk ≤ 100) ∧
    (0 ≤ p.risk_indicators.storm_risk ∧ p.risk_indicators.storm_risk ≤ 100) := by
  obtain ⟨i, j, hi, hj, rfl⟩ := mem_fetch_elim hp
  obtain ⟨h10, h11⟩ := hr (5 * (7 * i + j))
  obtain ⟨h20, h21⟩ := hr (5 * (7 * i + j) + 1)
  obtain ⟨h30, h31⟩ := hr (5 * (7 * i + j) + 2)
  obtain ⟨h40, h41⟩ := hr (5 * (7 * i + j) + 3)
  simp only [mkPoint]
  refine ⟨?_, ?_, ?_, ?_, riskRound_bounds _, riskRound_bounds _,
    riskRound_bounds _, riskRound_bounds _⟩
  · have hb := round2_bounds (rnd (5 * (7 * i + j)) * 30) 0 3000
      (by push_cast; nlinarith) (by push_cast; nlinarith)
    push_cast at hb
    constructor <;> linarith [hb.1, hb.2]
  · have hb := round2_bounds (0.2 + rnd (5 * (7 * i + j) + 1) * 0.6) 20 80
      (by push_cast; nlinarith) (by push_cast; nlinarith)
    push_cast at hb
    constructor <;> linarith [hb.1, hb.2]
  · have hb := round2_bounds (-0.3 + rnd (5 * (7 * i + j) + 2) * 0.5) (-30) 20
      (by push_cast; nlinarith) (by push_cast; nlinarith)
    push_cast at hb
    constructor <;> linarith [hb.1, hb.2]
  · have hb := round2_bounds (15 + rnd (5 * (7 * i + j) + 3) * 15) 1500 3000
      (by push_cast; nlinarith) (by push_cast; nlinarith)
    push_cast at hb
    constructor <;> linarith [hb.1, hb.2]

theorem c2_witness :
    ((0 : ℚ) ≤ samplePoint.cloud_coverage ∧ samplePoint.cloud_coverage ≤ 30) ∧
    ((0.2 : ℚ) ≤ samplePoint.vegetation_index ∧ samplePoint.vegetation_index ≤ 0.8) ∧
    ((-0.3 : ℚ) ≤ samplePoint.water_index ∧ samplePoint.water_index ≤ 0.2) ∧
    ((15 : ℚ) ≤ samplePoint.temperature ∧ samplePoint.temperature ≤ 30) ∧
    ((0 : ℤ) ≤ samplePoint.risk_indicators.flood_risk ∧ samplePoint.risk_indicators.flood_risk ≤ 100) ∧
    ((0 : ℤ) ≤ samplePoint.risk_indicators.drought_risk ∧ samplePoint.risk_indicators.drought_risk ≤ 100) ∧
    ((0 : ℤ) ≤ samplePoint.risk_indicators.wildfire_risk ∧ samplePoint.risk_indicators.wildfire_risk ≤ 100) ∧
    ((0 : ℤ) ≤ samplePoint.risk_indicators.storm_risk ∧ samplePoint.risk_indicators.storm_risk ≤ 100) :=
  c2_range_invariants 40.7128 (-74.006) rndHalf "t0"
    (fun _ => by norm_num [rndHalf]) samplePoint samplePoint_mem

/-- C3: one call of the grid generator yields exactly 49 points forming a
7×7 lattice with radius 0.045 and per-axis step (2·0.045)/(7−1); the point
at lattice cell (i, j) sits at position 7·i+j and has coordinates
(lat − radius + i·step, lng − radius + j·step); cell (0,0) is offset
exactly −radius from the center in both axes and cell (6,6) exactly
+radius in both axes. -/
theorem c3_grid_lattice (lat lng : ℚ) (rnd : ℕ → ℚ) (now : String) :
    (fetchSatelliteData lat lng rnd now).length = 49 ∧
    step = (2 * radius) / (7 - 1) ∧
    (∀ i j : ℕ, i < 7 → j < 7 →
      ∀ h : 7 * i + j < (fetchSatelliteData lat lng rnd now).length,
        ((fetchSatelliteData lat lng rnd now).get ⟨7 * i + j, h⟩).latitude =
            lat - radius + i * step ∧
          ((fetchSatelliteData lat lng rnd now).get ⟨7 * i + j, h⟩).longitude =
            lng - radius + j * step) ∧
    lat - radius + (0 : ℚ) * step = lat - radius ∧
    lng - radius + (0 : ℚ) * step = lng - radius ∧
    lat - radius + (6 : ℚ) * step = lat + radius ∧
    lng - radius + (6 : ℚ) * step = lng + radius := by
  refine ⟨fetch_length lat lng rnd now, ?_, ?_, by ring, by ring, ?_, ?_⟩
  · unfold step
    norm_num
    ring
  · intro i j hi hj h
    have hdiv : (7 * i + j) / 7 = i := by omega
    have hmod : (7 * i + j) % 7 = j := by omega
    rw [get_fetch, hdiv, hmod]
    exact ⟨rfl, rfl⟩
  · unfold step radius
    norm_num
    ring
  · unfold step radius
    norm_num
    ring

theorem c3_witness :
    (fetchSatelliteData 1 2 rndHalf "t0").length = 49 ∧
    ((fetchSatelliteData 1 2 rndHalf "t0").get? 8).map SatelliteDataPoint.latitude =
      some (1 - radius + (1 : ℕ) * step) := by
  obtain ⟨hlen, hstep, hg, hrest⟩ := c3_grid_lattice 1 2 rndHalf "t0"
  have h8 : 7 * 1 + 1 < (fetchSatelliteData 1 2 rndHalf "t0").length := by
    rw [hlen]; norm_num
  have hlat := (hg 1 1 (by norm_num) (by norm_num) h8).1
  refine ⟨hlen, ?_⟩
  rw [show (8 : ℕ) = 7 * 1 + 1 by norm_num, List.get?_eq_get h8]
  exact congrArg some hlat

/-- one `{ lat, lng }` entry of the ingestion function's location list. -/
structure LatLng where
  lat : ℚ
  lng : ℚ
deriving DecidableEq

/-- the five hardcoded `defaultLocations` of `ingest-satellite-data`:
New York, Los Angeles, Houston, Miami, San Francisco. -/
def defaultLocations : List LatLng :=
  [{ lat := 40.7128, lng := -74.0060 },
   { lat := 34.0522, lng := -118.2437 },
   { lat := 29.7604, lng := -95.3698 },
   { lat := 25.7617, lng := -80.1918 },
   { lat := 37.7749, lng := -122.4194 }]

/-- `locations || (latitude && longitude ? [{lat: latitude, lng: longitude}]
: defaultLocations)`.  A present `locations` array (even empty) is truthy;
a present number is truthy exactly when it is nonzero, so the JavaScript
conjunction `latitude && longitude` selects the single-location branch only
when both numbers are present and nonzero. -/
def locationsToProcess (locations : Option (List LatLng))
    (latitude longitude : Option ℚ) : List LatLng :=
  match locations with
  | some ls => ls
  | none =>
    match latitude, longitude with
    | some la, some lo =>
      if la ≠ 0 ∧ lo ≠ 0 then [{ lat := la, lng := lo }] else defaultLocations
    | _, _ => defaultLocations

/-- C4 counterexample: a body with no `locations`, `latitude = 0` and
`longitude = 5` is processed as the five default cities, not as the single
supplied location, because JavaScript treats the number 0 as falsy. -/
theorem c4_counterexample :
    locationsToProcess none (some 0) (some 5) = defaultLocations ∧
    locationsToProcess none (some 0) (some 5) ≠ [{ lat := 0, lng := 5 }] := by
  constructor
  · rfl
  · intro h
    have hlen := congrArg List.length h
    simp [defaultLocations, locationsToProcess] at hlen

/-- C4 amended: a supplied `locations` array is used as given; a supplied
latitude/longitude pair is used exactly when both are present and nonzero
(JavaScript truthiness); in every other case — either coordinate missing,
or either coordinate equal to 0 — the five hardcoded default cities
(New York, Los Angeles, Houston, Miami, San Francisco) are processed. -/
theorem c4_location_selection :
    (∀ (ls : List LatLng) (la lo : Option ℚ),
      locationsToProcess (some ls) la lo = ls) ∧
    (∀ la lo : ℚ, la ≠ 0 → lo ≠ 0 →
      locationsToProcess none (some la) (some lo) = [{ lat := la, lng := lo }]) ∧
    (∀ lo : ℚ, locationsToProcess none (some 0) (some lo) = defaultLocations) ∧
    (∀ la : ℚ, locationsToProcess none (some la) (some 0) = defaultLocations) ∧
    (∀ la : Option ℚ, locationsToProcess none la none = defaultLocations) ∧
    (∀ lo : Option ℚ, locationsToProcess none none lo = defaultLocations) ∧
    defaultLocations.length = 5 := by
  refine ⟨fun ls la lo => rfl, ?_, ?_, ?_, ?_, ?_, rfl⟩
  · intro la lo hla hlo
    simp [locationsToProcess, hla, hlo]
  · intro lo
    simp [locationsToProcess]
  · intro la
    simp [locationsToProcess]
  · intro la
    rcases la with _ | la <;> rfl
  · intro lo
    rcases lo with _ | lo <;> rfl

theorem c4_witness :
    locationsToProcess none (some 1) (some 2) = [{ lat := 1, lng := 2 }] :=
  c4_location_selection.2.1 1 2 (by norm_num) (by norm_num)

/-- the fields of the `ingest-satellite-data` request body that the handler
destructures: `{ trigger, source, latitude, longitude, locations }`. -/
structure IngestRequestBody where
  trigger : Option String
  source : Option String
  latitude : Option ℚ
  longitude : Option ℚ
  locations : Option (List LatLng)

/-- the 200-response body of `ingest-satellite-data`. -/
structure IngestOkBody where
  success : Bool
  message : String
  trigger : Option String
  source : Option String
  locationsProcessed : ℕ
  dataPointsInserted : ℕ
  timestamp : String
deriving DecidableEq

/-- the 500-response body `{ success: false, error, timestamp }`. -/
structure IngestErrBody where
  success : Bool
  error : String
  timestamp : String
deriving DecidableEq

/-- a JSON body returned by `ingest-satellite-data`. -/
inductive IngestBody where
  | ok : IngestOkBody → IngestBody
  | err : IngestErrBody → IngestBody
deriving DecidableEq

/-- an HTTP response of `ingest-satellite-data` (`body = none` is the CORS
preflight response `new Response(null, ...)`). -/
structure IngestResponse where
  status : ℕ
  body : Option IngestBody
deriving DecidableEq

/-- the per-location for-loop of `ingest-satellite-data`: location number
`k` regenerates a grid and, when its bulk insert succeeds (`insertOk k`),
adds `satelliteData.length` to `totalInserted`; an insert error is only
logged and iteration continues with the remaining locations.  Each location
consumes its own 245-draw block of the `Math.random()` stream. -/
def insertLoop : List LatLng → (ℕ → ℚ) → String → (ℕ → Bool) → ℕ → ℕ
  | [], _, _, _, _ => 0
  | loc :: rest, rnd, now, insertOk, k =>
    (if insertOk k then
        (fetchSatelliteData loc.lat loc.lng (fun n => rnd (245 * k + n)) now).length
      else 0)
      + insertLoop rest rnd now insertOk (k + 1)

/-- the `serve` handler of `ingest-satellite-data`.  `bodyResult` is the
outcome of `await req.json()`, `clientResult` the outcome of constructing
the persistence client; a failure of either is a top-level exception caught
by the outer try/catch.  `insertOk k` tells whether the bulk insert for the
`k`-th processed location succeeds. -/
def ingestSatelliteData (method : String)
    (bodyResult : Except String IngestRequestBody)
    (clientResult : Except String Unit) (rnd : ℕ → ℚ) (now : String)
    (insertOk : ℕ → Bool) : IngestResponse :=
  if method = "OPTIONS" then { status := 200, body := none }
  else
    match bodyResult with
    | .error e =>
      { status := 500
        body := some (.err { success := false, error := e, timestamp := now }) }
    | .ok b =>
      match clientResult with
      | .error e =>
        { status := 500
          body := some (.err { success := false, error := e, timestamp := now }) }
      | .ok _ =>
        let locs := locationsToProcess b.locations b.latitude b.longitude
        { status := 200
          body := some (.ok
            { success := true
              message := "Satellite data ingestion complete"
              trigger := b.trigger
              source := b.source
              locationsProcessed := locs.length
              dataPointsInserted := insertLoop locs rnd now insertOk 0
              timestamp := now }) }

lemma insertLoop_eq (rnd : ℕ → ℚ) (now : String) (insertOk : ℕ → Bool) :
    ∀ (locs : List LatLng) (k : ℕ),
      insertLoop locs rnd now insertOk k =
        49 * ((List.range locs.length).filter (fun m => insertOk (k + m))).length := by
  intro locs
  induction locs with
  | nil => intro k; simp [insertLoop]
  | cons loc rest ih =>
    intro k
    rw [insertLoop, fetch_length, ih (k + 1), List.length_cons,
      List.range_succ_eq_map, List.filter_cons]
    have hf : (fun m => insertOk (k + 1 + m)) = fun m => insertOk (k + Nat.succ m) := by
      funext m
      congr 1
      omega
    rw [hf]
    rw [List.filter_map]
    have hc : ((fun m => insertOk (k + m)) ∘ Nat.succ) = fun m => insertOk (k + Nat.succ m) := by
      funext m
      rfl
    rw [hc]
    cases hik : insertOk k
    all_goals simp [hik]
    all_goals omega

/-- C5: for a request supplying a `locations` array of length K, and any
pattern of per-location insert outcomes, the response is a 200 whose body
has success = true, locationsProcessed = K and dataPointsInserted =
49 × (number of locations whose insert succeeded); a failed insert does not
abort the remaining locations — every index of the array contributes to the
success count independently. -/
theorem c5_summary_counts (ls : List LatLng) (tg sc : Option String)
    (la lo : Option ℚ) (rnd : ℕ → ℚ) (now : String) (insertOk : ℕ → Bool) :
    (ingestSatelliteData "POST"
        (Except.ok { trigger := tg, source := sc, latitude := la,
                     longitude := lo, locations := some ls })
        (Except.ok ()) rnd now insertOk).status = 200 ∧
    (ingestSatelliteData "POST"
        (Except.ok { trigger := tg, source := sc, latitude := la,
                     longitude := lo, locations := some ls })
        (Except.ok ()) rnd now insertOk).body =
      some (IngestBody.ok
        { success := true
          message := "Satellite data ingestion complete"
          trigger := tg
          source := sc
          locationsProcessed := ls.length
          dataPointsInserted := 49 * ((List.range ls.length).filter insertOk).length
          timestamp := now }) := by
  constructor
  · rfl
  · show some _ = some _
    have hloc : locationsToProcess (some ls) la lo = ls := rfl
    have hins := insertLoop_eq rnd now insertOk ls 0
    have hz : (fun m => insertOk (0 + m)) = insertOk := by
      funext m
      rw [Nat.zero_add]
    rw [hz] at hins
    simp only [ingestSatelliteData, hloc]
    norm_num [hins]

/-- C7: any top-level exception in `ingest-satellite-data` — a failing
`req.json()` or a failing client construction — yields an HTTP 500 whose
body is `{ success: false, error, timestamp }`; no 200 response is
produced in that case. -/
theorem c7_top_level_error_500 (method : String) (hm : method ≠ "OPTIONS")
    (e : String) (bodyResult : Except String IngestRequestBody)
    (clientResult : Except String Unit) (rnd : ℕ → ℚ) (now : String)
    (insertOk : ℕ → Bool)
    (herr : bodyResult = Except.error e ∨
      (∃ b, bodyResult = Except.ok b ∧ clientResult = Except.error e)) :
    ingestSatelliteData method bodyResult clientResult rnd now insertOk =
      { status := 500
        body := some (IngestBody.err
          { success := false, error := e, timestamp := now }) } ∧
    (ingestSatelliteData method bodyResult clientResult rnd now insertOk).status
      ≠ 200 := by
  rcases herr with rfl | ⟨b, rfl, rfl⟩ <;>
    simp [ingestSatelliteData, hm]

theorem c7_witness :
    ingestSatelliteData "POST" (Except.error "bad json") (Except.ok ())
        rndHalf "t0" (fun _ => true) =
      { status := 500
        body := some (IngestBody.err
          { success := false, error := "bad json", timestamp := "t0" }) } ∧
    (ingestSatelliteData "POST" (Except.error "bad json") (Except.ok ())
        rndHalf "t0" (fun _ => true)).status ≠ 200 :=
  c7_top_level_error_500 "POST" (by decide) "bad json" (Except.error "bad json")
    (Except.ok ()) rndHalf "t0" (fun _ => true) (Or.inl rfl)

/-- the `message` object of a Pub/Sub push envelope. -/
structure PubSubMsg where
  data : String
  messageId : String
  publishTime : String
deriving DecidableEq

/-- a Pub/Sub push envelope as the webhook reads it; a missing `message`
makes the handler throw `Invalid Pub/Sub message format`. -/
structure PubSubEnvelope where
  message : Option PubSubMsg
deriving DecidableEq

/-- the `location` object of the decoded inner payload. -/
structure LocationObj where
  latitude : Option ℚ
  longitude : Option ℚ
deriving DecidableEq

/-- the decoded inner JSON payload of a Pub/Sub message. -/
structure InnerPayload where
  eventType : Option String
  satellite : Option String
  location : Option LocationObj
  acquisitionTime : Option String
  severity : Option String
deriving DecidableEq

/-- the JSON body the webhook POSTs to `ingest-satellite-data`. -/
structure IngestRequest where
  trigger : String
  source : String
  latitude : Option ℚ
  longitude : Option ℚ
  eventType : Option String
  satellite : Option String
  severity : Option String
deriving DecidableEq

/-- what the webhook reads out of the ingestion call: the HTTP status and
the parsed JSON body, of which only `dataPointsInserted` is ever used
(`none` models a body without that field, e.g. the 500 error body). -/
structure IngestJson where
  success : Option Bool
  dataPointsInserted : Option ℕ
  error : Option String
deriving DecidableEq

/-- the webhook's 200 success body. -/
structure WebhookOkBody where
  success : Bool
  message : String
  messageId : String
  eventType : Option String
  dataPointsProcessed : Option ℕ
deriving DecidableEq

/-- the webhook's 200 error body `{ success: false, error, timestamp }`. -/
structure WebhookErrBody where
  success : Bool
  error : String
  timestamp : String
deriving DecidableEq

/-- a JSON body returned by the webhook. -/
inductive WebhookBody where
  | ok : WebhookOkBody → WebhookBody
  | err : WebhookErrBody → WebhookBody
deriving DecidableEq

/-- an HTTP response of the webhook (`body = none` is the CORS preflight
response `new Response(null, ...)`). -/
structure WebhookResponse where
  status : ℕ
  body : Option WebhookBody
deriving DecidableEq

/-- the `serve` handler of `satellite-webhook`.  `bodyResult` is the
outcome of `await req.json()`; `decode` is the outcome of
`JSON.parse(atob(message.data))`; `ingest` is the outcome of the `fetch`
to `ingest-satellite-data` followed by `.json()`.  Besides the response,
the list of ingestion requests actually issued is returned, so that
"invokes the ingestion function exactly once" is a provable statement. -/
def satelliteWebhook (method : String)
    (bodyResult : Except String PubSubEnvelope)
    (decode : String → Except String InnerPayload)
    (ingest : IngestRequest → Except String (ℕ × IngestJson))
    (now : String) : WebhookResponse × List IngestRequest :=
  if method = "OPTIONS" then ({ status := 200, body := none }, [])
  else
    match bodyResult with
    | .error e =>
      ({ status := 200
         body := some (.err { success := false, error := e, timestamp := now }) }, [])
    | .ok env =>
      match env.message with
      | none =>
        ({ status := 200
           body := some (.err
             { success := false
               error := "Invalid Pub/Sub message format"
               timestamp := now }) }, [])
      | some msg =>
        match decode msg.data with
        | .error e =>
          ({ status := 200
             body := some (.err { success := false, error := e, timestamp := now }) }, [])
        | .ok payload =>
          let req : IngestRequest :=
            { trigger := "pubsub"
              source := "google-cloud"
              latitude := payload.location.bind LocationObj.latitude
              longitude := payload.location.bind LocationObj.longitude
              eventType := payload.eventType
              satellite := payload.satellite
              severity := payload.severity }
          match ingest req with
          | .error e =>
            ({ status := 200
               body := some (.err { success := false, error := e, timestamp := now }) },
             [req])
          | .ok (_st, json) =>
            ({ status := 200
               body := some (.ok
                 { success := true
                   message := "Satellite event processed successfully"
                   messageId := msg.messageId
                   eventType := payload.eventType
                   dataPointsProcessed := json.dataPointsInserted }) },
             [req])

/-- C6: every non-preflight webhook request is answered with HTTP 200 —
on success and on every failure (malformed envelope, decode failure,
downstream call failure) alike; a failing `req.json()` yields the error
body `{ success: false, error, timestamp }` rather than a non-200 status. -/
theorem c6_webhook_always_200 (method : String)
    (bodyResult : Except String PubSubEnvelope)
    (decode : String → Except String InnerPayload)
    (ingest : IngestRequest → Except String (ℕ × IngestJson))
    (now : String) (hm : method ≠ "OPTIONS") :
    (satelliteWebhook method bodyResult decode ingest now).1.status = 200 ∧
    (∃ b, (satelliteWebhook method bodyResult decode ingest now).1.body = some b) ∧
    (∀ e, bodyResult = Except.error e →
      (satelliteWebhook method bodyResult decode ingest now).1.body =
        some (WebhookBody.err
          { success := false, error := e, timestamp := now })) := by
  unfold satelliteWebhook
  rw [if_neg hm]
  rcases bodyResult with e | env
  · exact ⟨rfl, ⟨_, rfl⟩, fun e he => by cases he; rfl⟩
  · rcases env with ⟨_ | msg⟩
    · exact ⟨rfl, ⟨_, rfl⟩, fun e he => by cases he⟩
    · rcases hdec : decode msg.data with e | payload <;> simp only [hdec]
      · exact ⟨by trivial, ⟨_, rfl⟩, fun e he => by cases he⟩
      · rcases hing : ingest _ with e | ⟨st, json⟩ <;> simp only [hing]
        · exact ⟨by trivial, ⟨_, rfl⟩, fun e he => by cases he⟩
        · exact ⟨by trivial, ⟨_, rfl⟩, fun e he => by cases he⟩

theorem c6_witness :
    (satelliteWebhook "POST" (Except.error "bad json")
        (fun _ => Except.error "x") (fun _ => Except.error "x") "t0").1.status
      = 200 ∧
    (satelliteWebhook "POST" (Except.error "bad json")
        (fun _ => Except.error "x") (fun _ => Except.error "x") "t0").1.body =
      some (WebhookBody.err
        { success := false, error := "bad json", timestamp := "t0" }) :=
  ⟨(c6_webhook_always_200 "POST" (Except.error "bad json")
      (fun _ => Except.error "x") (fun _ => Except.error "x") "t0"
      (by decide)).1,
   (c6_webhook_always_200 "POST" (Except.error "bad json")
      (fun _ => Except.error "x") (fun _ => Except.error "x") "t0"
      (by decide)).2.2 "bad json" rfl⟩

/-- the parsed-JSON view of an ingestion response, as the webhook's
`await ingestResponse.json()` sees it: the 500 error body carries no
`dataPointsInserted` field, so that field reads back as `none`. -/
def ingestAsJson (resp : IngestResponse) : ℕ × IngestJson :=
  (resp.status,
    match resp.body with
    | some (.ok b) =>
      { success := some true
        dataPointsInserted := some b.dataPointsInserted
        error := none }
    | some (.err b) =>
      { success := some false
        dataPointsInserted := none
        error := some b.error }
    | none =>
      { success := none
        dataPointsInserted := none
        error := none })

/-- the request body produced by the webhook's POST, as destructured by
`ingest-satellite-data` (the POST carries no `locations` field). -/
def toIngestBody (r : IngestRequest) : IngestRequestBody :=
  { trigger := some r.trigger
    source := some r.source
    latitude := r.latitude
    longitude := r.longitude
    locations := none }

/-- the deployed wiring: the webhook's `fetch` reaches the real
`ingest-satellite-data` handler and parses its JSON answer. -/
def composedIngest (rnd : ℕ → ℚ) (now : String) (insertOk : ℕ → Bool) :
    IngestRequest → Except String (ℕ × IngestJson) :=
  fun r => Except.ok (ingestAsJson
    (ingestSatelliteData "POST" (Except.ok (toIngestBody r)) (Except.ok ())
      rnd now insertOk))

/-- a Pub/Sub envelope whose `message` object is present, with the given
base64 `data`, `messageId` and `publishTime`. -/
def mkEnvelope (msgData msgId pubTime : String) : PubSubEnvelope :=
  { message := some { data := msgData, messageId := msgId, publishTime := pubTime } }

/-- the ingestion request the webhook builds from a decoded payload whose
location carries the given latitude and longitude. -/
def pubsubIngestRequest (la lo : ℚ) (eT sat sev : String) : IngestRequest :=
  { trigger := "pubsub"
    source := "google-cloud"
    latitude := some la
    longitude := some lo
    eventType := some eT
    satellite := some sat
    severity := some sev }

/-- C8: for every envelope whose `message.data` decodes to a payload
carrying eventType, satellite, a location with latitude and longitude, and
severity — zero coordinates included — the webhook issues exactly one
ingestion call, with trigger `pubsub`, source `google-cloud` and the
decoded coordinates, and its success response forwards the composed
ingestion result's `dataPointsInserted` verbatim as `dataPointsProcessed`;
in particular, when both coordinates are nonzero (so the generator
processes the single decoded location) and every insert succeeds,
`dataPointsProcessed = 49`. -/
theorem c8_webhook_triggers_ingestion (msgData msgId pubTime : String)
    (decode : String → Except String InnerPayload) (payload : InnerPayload)
    (la lo : ℚ) (eT sat sev : String) (rnd : ℕ → ℚ) (now : String)
    (insertOk : ℕ → Bool)
    (hdec : decode msgData = Except.ok payload)
    (hloc : payload.location = some { latitude := some la, longitude := some lo })
    (heT : payload.eventType = some eT) (hsat : payload.satellite = some sat)
    (hsev : payload.severity = some sev) :
    (satelliteWebhook "POST" (Except.ok (mkEnvelope msgData msgId pubTime))
        decode (composedIngest rnd now insertOk) now).2 =
      [pubsubIngestRequest la lo eT sat sev] ∧
    (satelliteWebhook "POST" (Except.ok (mkEnvelope msgData msgId pubTime))
        decode (composedIngest rnd now insertOk) now).1.body =
      some (WebhookBody.ok
        { success := true
          message := "Satellite event processed successfully"
          messageId := msgId
          eventType := some eT
          dataPointsProcessed :=
            (ingestAsJson (ingestSatelliteData "POST"
              (Except.ok (toIngestBody (pubsubIngestRequest la lo eT sat sev)))
              (Except.ok ()) rnd now insertOk)).2.dataPointsInserted }) ∧
    (la ≠ 0 → lo ≠ 0 → (∀ k, insertOk k = true) →
      (satelliteWebhook "POST" (Except.ok (mkEnvelope msgData msgId pubTime))
          decode (composedIngest rnd now insertOk) now).1.body =
        some (WebhookBody.ok
          { success := true
            message := "Satellite event processed successfully"
            messageId := msgId
            eventType := some eT
            dataPointsProcessed := some 49 })) := by
  refine ⟨?_, ?_, ?_⟩
  · unfold satelliteWebhook mkEnvelope pubsubIngestRequest
    rw [if_neg (by decide)]
    simp only [hdec, hloc, heT, hsat, hsev, Option.some_bind, composedIngest]
  · unfold satelliteWebhook mkEnvelope pubsubIngestRequest
    rw [if_neg (by decide)]
    simp only [hdec, hloc, heT, hsat, hsev, Option.some_bind, composedIngest,
      ingestAsJson, toIngestBody]
  · intro hla hlo hins
    have hltp : locationsToProcess none (some la) (some lo) =
        [{ lat := la, lng := lo }] := by
      simp [locationsToProcess, hla, hlo]
    have hil : insertLoop [{ lat := la, lng := lo }] rnd now insertOk 0 = 49 := by
      simp [insertLoop, hins 0, fetch_length]
    have hcall : composedIngest rnd now insertOk
        { trigger := "pubsub"
          source := "google-cloud"
          latitude := some la
          longitude := some lo
          eventType := some eT
          satellite := some sat
          severity := some sev } =
        Except.ok (200,
          { success := some true
            dataPointsInserted := some 49
            error := none }) := by
      simp [composedIngest, toIngestBody, ingestAsJson, ingestSatelliteData,
        hltp, hil]
    unfold satelliteWebhook mkEnvelope
    rw [if_neg (by decide)]
    simp only [hdec, hloc, heT, hsat, hsev, Option.some_bind]
    rw [hcall]

/-- the decoded payload of the documentation's example Pub/Sub message. -/
def samplePayload : InnerPayload :=
  { eventType := some "new_sentinel_data"
    satellite := some "Sentinel-2"
    location := some { latitude := some 40.7128, longitude := some (-74.006) }
    acquisitionTime := none
    severity := some "high" }

theorem c8_witness :
    (satelliteWebhook "POST" (Except.ok (mkEnvelope "d" "m1" "p"))
        (fun _ => Except.ok samplePayload)
        (composedIngest rndHalf "t0" (fun _ => true)) "t0").2 =
      [pubsubIngestRequest 40.7128 (-74.006) "new_sentinel_data" "Sentinel-2"
        "high"] ∧
    (satelliteWebhook "POST" (Except.ok (mkEnvelope "d" "m1" "p"))
        (fun _ => Except.ok samplePayload)
        (composedIngest rndHalf "t0" (fun _ => true)) "t0").1.body =
      some (WebhookBody.ok
        { success := true
          message := "Satellite event processed successfully"
          messageId := "m1"
          eventType := some "new_sentinel_data"
          dataPointsProcessed := some 49 }) := by
  have h := c8_webhook_triggers_ingestion "d" "m1" "p"
    (fun _ => Except.ok samplePayload) samplePayload 40.7128 (-74.006)
    "new_sentinel_data" "Sentinel-2" "high" rndHalf "t0" (fun _ => true)
    rfl rfl rfl rfl rfl
  exact ⟨h.1, h.2.2 (by norm_num) (by norm_num) (fun _ => rfl)⟩

/-- C10: the webhook's success flag is transport-level only.  Whenever the
inner pipeline succeeds and the downstream ingestion call yields any
parseable JSON at all, the webhook responds with the success body, copying
that JSON's `dataPointsInserted` verbatim into `dataPointsProcessed`
(absent stays absent); the whole response is unchanged if the ingestion
HTTP status or its `success`/`error` fields change, since only
`dataPointsInserted` is read. -/
theorem c10_success_transport_only (method : String)
    (bodyResult : Except String PubSubEnvelope)
    (decode : String → Except String InnerPayload) (now : String)
    (st1 st2 : ℕ) (j1 j2 : IngestJson)
    (hj : j1.dataPointsInserted = j2.dataPointsInserted)
    (hm : method ≠ "OPTIONS") :
    satelliteWebhook method bodyResult decode (fun _ => Except.ok (st1, j1)) now =
      satelliteWebhook method bodyResult decode (fun _ => Except.ok (st2, j2)) now ∧
    (∀ env msg payload, bodyResult = Except.ok env → env.message = some msg →
      decode msg.data = Except.ok payload →
      (satelliteWebhook method bodyResult decode
          (fun _ => Except.ok (st1, j1)) now).1.body =
        some (WebhookBody.ok
          { success := true
            message := "Satellite event processed successfully"
            messageId := msg.messageId
            eventType := payload.eventType
            dataPointsProcessed := j1.dataPointsInserted })) := by
  constructor
  · unfold satelliteWebhook
    rw [if_neg hm, if_neg hm]
    rcases bodyResult with e | env
    · rfl
    · rcases env with ⟨_ | msg⟩
      · rfl
      · rcases hdec : decode msg.data with e | payload <;> simp only [hdec]
        all_goals first
        | rfl
        | rw [hj]
  · intro env msg payload hb hmsg hdec2
    subst hb
    rcases env with ⟨menv⟩
    cases hmsg
    unfold satelliteWebhook
    rw [if_neg hm]
    simp only [hdec2]

theorem c10_witness :
    satelliteWebhook "POST" (Except.ok (mkEnvelope "d" "m1" "p"))
        (fun _ => Except.ok samplePayload)
        (fun _ => Except.ok (500,
          { success := some false, dataPointsInserted := some 7, error := some "boom" }))
        "t0" =
      satelliteWebhook "POST" (Except.ok (mkEnvelope "d" "m1" "p"))
        (fun _ => Except.ok samplePayload)
        (fun _ => Except.ok (200,
          { success := some true, dataPointsInserted := some 7, error := none }))
        "t0" ∧
    (satelliteWebhook "POST" (Except.ok (mkEnvelope "d" "m1" "p"))
        (fun _ => Except.ok samplePayload)
        (fun _ => Except.ok (500,
          { success := some false, dataPointsInserted := some 7, error := some "boom" }))
        "t0").1.body =
      some (WebhookBody.ok
        { success := true
          message := "Satellite event processed successfully"
          messageId := "m1"
          eventType := some "new_sentinel_data"
          dataPointsProcessed := some 7 }) := by
  have h := c10_success_transport_only "POST" (Except.ok (mkEnvelope "d" "m1" "p"))
    (fun _ => Except.ok samplePayload) "t0" 500 200
    { success := some false, dataPointsInserted := some 7, error := some "boom" }
    { success := some true, dataPointsInserted := some 7, error := none }
    rfl (by decide)
  exact ⟨h.1, h.2 (mkEnvelope "d" "m1" "p") _ samplePayload rfl rfl rfl⟩

/-- Postgres `numeric` rounding to an integer: round half away from zero. -/
def pgRound (x : ℚ) : ℤ := if 0 ≤ x then ⌊x + 1/2⌋ else -⌊-x + 1/2⌋

/-- the value kept by a Postgres column of scale `s`: the input rounded to
`s` fractional digits. -/
def pgStore (s : ℕ) (x : ℚ) : ℚ := (pgRound (x * 10 ^ s) : ℚ) / 10 ^ s

/-- a Postgres `DECIMAL(p, s)` column: rounds to scale `s`, and the insert
fails with a numeric-field overflow when the result needs more than
`p - s` integer digits. -/
def pgStoreCol (p s : ℕ) (x : ℚ) : Option ℚ :=
  if |pgStore s x| < 10 ^ (p - s) then some (pgStore s x) else none

/-- inserting one generated point into `satellite_data` and reading it
back by bounding box: latitude is DECIMAL(10,8), longitude DECIMAL(11,8),
cloud_coverage, vegetation_index and water_index DECIMAL(5,2), temperature
DECIMAL(6,2); `risk_indicators` (JSONB of integers) and `source` (TEXT)
are kept verbatim, and `acquisition_time` formatting is out of scope. -/
def storePoint (pt : SatelliteDataPoint) : Option SatelliteDataPoint :=
  match pgStoreCol 10 8 pt.latitude, pgStoreCol 11 8 pt.longitude,
      pgStoreCol 5 2 pt.cloud_coverage, pgStoreCol 5 2 pt.vegetation_index,
      pgStoreCol 5 2 pt.water_index, pgStoreCol 6 2 pt.temperature with
  | some la, some lo, some cc, some vi, some wi, some te =>
    some { pt with latitude := la, longitude := lo, cloud_coverage := cc,
                   vegetation_index := vi, water_index := wi,
                   temperature := te }
  | _, _, _, _, _, _ => none

lemma floor_half : ⌊(1/2 : ℚ)⌋ = 0 := by
  rw [Int.floor_eq_iff]
  norm_num

lemma pgStore_int_div (s : ℕ) (z : ℤ) :
    pgStore s ((z : ℚ) / 10 ^ s) = (z : ℚ) / 10 ^ s := by
  have h10 : ((10 : ℚ) ^ s) ≠ 0 := by positivity
  have hx : (z : ℚ) / 10 ^ s * 10 ^ s = (z : ℚ) := div_mul_cancel₀ _ h10
  unfold pgStore pgRound
  rw [hx]
  split_ifs with h
  · rw [add_comm, Int.floor_add_int, floor_half, zero_add]
  · rw [show -(z : ℚ) = ((-z : ℤ) : ℚ) by push_cast; ring, add_comm,
      Int.floor_add_int, floor_half, zero_add]
    push_cast
    ring

lemma pgStoreCol_exact (p s : ℕ) (z : ℤ)
    (hb : |(z : ℚ) / 10 ^ s| < 10 ^ (p - s)) :
    pgStoreCol p s ((z : ℚ) / 10 ^ s) = some ((z : ℚ) / 10 ^ s) := by
  unfold pgStoreCol
  rw [pgStore_int_div, if_pos hb]

lemma storePoint_eq_of {pt : SatelliteDataPoint} {la lo cc vi wi te : ℚ}
    (h1 : pgStoreCol 10 8 pt.latitude = some la)
    (h2 : pgStoreCol 11 8 pt.longitude = some lo)
    (h3 : pgStoreCol 5 2 pt.cloud_coverage = some cc)
    (h4 : pgStoreCol 5 2 pt.vegetation_index = some vi)
    (h5 : pgStoreCol 5 2 pt.water_index = some wi)
    (h6 : pgStoreCol 6 2 pt.temperature = some te) :
    storePoint pt =
      some { pt with
             latitude := la
             longitude := lo
             cloud_coverage := cc
             vegetation_index := vi
             water_index := wi
             temperature := te } := by
  unfold storePoint
  rw [h1, h2, h3, h4, h5, h6]

lemma storePoint_exact {pt : SatelliteDataPoint}
    (h1 : pgStore 8 pt.latitude = pt.latitude)
    (h2 : pgStore 8 pt.longitude = pt.longitude)
    (h3 : pgStore 2 pt.cloud_coverage = pt.cloud_coverage)
    (h4 : pgStore 2 pt.vegetation_index = pt.vegetation_index)
    (h5 : pgStore 2 pt.water_index = pt.water_index)
    (h6 : pgStore 2 pt.temperature = pt.temperature)
    {st : SatelliteDataPoint} (hst : storePoint pt = some st) : st = pt := by
  unfold storePoint pgStoreCol at hst
  rw [h1, h2, h3, h4, h5, h6] at hst
  split_ifs at hst
  cases hst
  rfl

lemma pgStore2_round2 (x : ℚ) : pgStore 2 (round2 x) = round2 x := by
  have h := pgStore_int_div 2 (jsRound (x * 100))
  unfold round2
  rw [show ((10 : ℚ) ^ 2) = 100 by norm_num] at h
  exact h

lemma mkPoint_latitude_exact (zla : ℤ) (lng : ℚ) (i j : ℕ)
    (r1 r2 r3 r4 r5 : ℚ) (now : String) :
    pgStore 8 ((mkPoint ((zla : ℚ) / 10 ^ 8) lng i j r1 r2 r3 r4 r5 now).latitude)
      = (mkPoint ((zla : ℚ) / 10 ^ 8) lng i j r1 r2 r3 r4 r5 now).latitude := by
  have hr : radius = 45 / 1000 := by norm_num [radius]
  have hs : step = 15 / 1000 := by norm_num [step, radius]
  have hl : (mkPoint ((zla : ℚ) / 10 ^ 8) lng i j r1 r2 r3 r4 r5 now).latitude =
      ((zla - 4500000 + 1500000 * i : ℤ) : ℚ) / 10 ^ 8 := by
    show (zla : ℚ) / 10 ^ 8 - radius + i * step = _
    rw [hr, hs]
    push_cast
    ring
  rw [hl]
  exact pgStore_int_div 8 _

lemma mkPoint_longitude_exact (lat : ℚ) (zlo : ℤ) (i j : ℕ)
    (r1 r2 r3 r4 r5 : ℚ) (now : String) :
    pgStore 8 ((mkPoint lat ((zlo : ℚ) / 10 ^ 8) i j r1 r2 r3 r4 r5 now).longitude)
      = (mkPoint lat ((zlo : ℚ) / 10 ^ 8) i j r1 r2 r3 r4 r5 now).longitude := by
  have hr : radius = 45 / 1000 := by norm_num [radius]
  have hs : step = 15 / 1000 := by norm_num [step, radius]
  have hl : (mkPoint lat ((zlo : ℚ) / 10 ^ 8) i j r1 r2 r3 r4 r5 now).longitude =
      ((zlo - 4500000 + 1500000 * j : ℤ) : ℚ) / 10 ^ 8 := by
    show (zlo : ℚ) / 10 ^ 8 - radius + j * step = _
    rw [hr, hs]
    push_cast
    ring
  rw [hl]
  exact pgStore_int_div 8 _

/-- C9 amended: the storage round-trip is exact for every generated point
whose center coordinates are representable at scale 8 (at most 8 fractional
decimal digits) — in particular for all default and documented example
locations — provided the insert succeeded; for centers with more fractional
digits the DECIMAL(10,8)/DECIMAL(11,8) columns round the coordinates. -/
theorem c9_roundtrip_scale8 (lat lng : ℚ) (rnd : ℕ → ℚ) (now : String)
    (zla zlo : ℤ) (hla : lat = (zla : ℚ) / 10 ^ 8) (hlo : lng = (zlo : ℚ) / 10 ^ 8)
    (p : SatelliteDataPoint) (hp : p ∈ fetchSatelliteData lat lng rnd now)
    (st : SatelliteDataPoint) (hst : storePoint p = some st) : st = p := by
  subst hla hlo
  obtain ⟨i, j, hi, hj, rfl⟩ := mem_fetch_elim hp
  refine storePoint_exact ?_ ?_ ?_ ?_ ?_ ?_ hst
  · exact mkPoint_latitude_exact zla _ i j _ _ _ _ _ _
  · exact mkPoint_longitude_exact _ zlo i j _ _ _ _ _ _
  · exact pgStore2_round2 _
  · exact pgStore2_round2 _
  · exact pgStore2_round2 _
  · exact pgStore2_round2 _

lemma jsRound_eq (x : ℚ) (z : ℤ) (h1 : (z : ℚ) ≤ x + 1/2)
    (h2 : x + 1/2 < z + 1) : jsRound x = z := by
  unfold jsRound
  rw [Int.floor_eq_iff]
  exact ⟨h1, h2⟩

lemma round2_eq (x : ℚ) (z : ℤ) (h1 : (z : ℚ) ≤ x * 100 + 1/2)
    (h2 : x * 100 + 1/2 < z + 1) : round2 x = (z : ℚ) / 100 := by
  unfold round2
  rw [jsRound_eq (x * 100) z h1 h2]

/-- the lattice cell (0,0) point generated for the center
(40.000000005, -74.006) — a center latitude with nine fractional decimal
digits — under an all-zero draw stream. -/
def lossyPoint : SatelliteDataPoint :=
  mkPoint 40.000000005 (-74.006) 0 0 0 0 0 0 0 "t0"

lemma lossyPoint_latitude :
    lossyPoint.latitude = (7991000001 : ℚ) / (2 * 10 ^ 8) := by
  show (40.000000005 : ℚ) - radius + ((0 : ℕ) : ℚ) * step = _
  norm_num [radius, step]

lemma storePoint_lossyPoint :
    storePoint lossyPoint =
      some { lossyPoint with latitude := (3995500001 : ℚ) / 10 ^ 8 } := by
  have hps : pgStore 8 ((7991000001 : ℚ) / (2 * 10 ^ 8)) =
      (3995500001 : ℚ) / 10 ^ 8 := by
    unfold pgStore pgRound
    rw [show (7991000001 : ℚ) / (2 * 10 ^ 8) * 10 ^ 8 =
        ((3995500001 : ℤ) : ℚ) - 1/2 by push_cast; ring]
    rw [if_pos (by push_cast; norm_num)]
    rw [sub_add_cancel, Int.floor_intCast]
    norm_num
  have hc1 : pgStoreCol 10 8 lossyPoint.latitude =
      some ((3995500001 : ℚ) / 10 ^ 8) := by
    rw [lossyPoint_latitude]
    unfold pgStoreCol
    rw [hps, if_pos (by rw [abs_lt]; constructor <;> norm_num)]
  have hv2 : lossyPoint.longitude = ((-7405100000 : ℤ) : ℚ) / 10 ^ 8 := by
    show (-74.006 : ℚ) - radius + ((0 : ℕ) : ℚ) * step = _
    push_cast
    norm_num [radius, step]
  have hc2 : pgStoreCol 11 8 lossyPoint.longitude =
      some lossyPoint.longitude := by
    rw [hv2]
    exact pgStoreCol_exact 11 8 _
      (by rw [abs_lt]; constructor <;> (push_cast; norm_num))
  have hv3 : lossyPoint.cloud_coverage = ((0 : ℤ) : ℚ) / 10 ^ 2 := by
    show round2 ((0 : ℚ) * 30) = _
    rw [round2_eq ((0 : ℚ) * 30) 0 (by norm_num) (by norm_num)]
    norm_num
  have hc3 : pgStoreCol 5 2 lossyPoint.cloud_coverage =
      some lossyPoint.cloud_coverage := by
    rw [hv3]
    exact pgStoreCol_exact 5 2 _
      (by rw [abs_lt]; constructor <;> (push_cast; norm_num))
  have hv4 : lossyPoint.vegetation_index = ((20 : ℤ) : ℚ) / 10 ^ 2 := by
    show round2 ((0.2 : ℚ) + 0 * 0.6) = _
    rw [round2_eq ((0.2 : ℚ) + 0 * 0.6) 20 (by norm_num) (by norm_num)]
    push_cast
    norm_num
  have hc4 : pgStoreCol 5 2 lossyPoint.vegetation_index =
      some lossyPoint.vegetation_index := by
    rw [hv4]
    exact pgStoreCol_exact 5 2 _
      (by rw [abs_lt]; constructor <;> (push_cast; norm_num))
  have hv5 : lossyPoint.water_index = ((-30 : ℤ) : ℚ) / 10 ^ 2 := by
    show round2 ((-0.3 : ℚ) + 0 * 0.5) = _
    rw [round2_eq ((-0.3 : ℚ) + 0 * 0.5) (-30) (by norm_num) (by norm_num)]
    push_cast
    norm_num
  have hc5 : pgStoreCol 5 2 lossyPoint.water_index =
      some lossyPoint.water_index := by
    rw [hv5]
    exact pgStoreCol_exact 5 2 _
      (by rw [abs_lt]; constructor <;> (push_cast; norm_num))
  have hv6 : lossyPoint.temperature = ((1500 : ℤ) : ℚ) / 10 ^ 2 := by
    show round2 ((15 : ℚ) + 0 * 15) = _
    rw [round2_eq ((15 : ℚ) + 0 * 15) 1500 (by norm_num) (by norm_num)]
    push_cast
    norm_num
  have hc6 : pgStoreCol 6 2 lossyPoint.temperature =
      some lossyPoint.temperature := by
    rw [hv6]
    exact pgStoreCol_exact 6 2 _
      (by rw [abs_lt]; constructor <;> (push_cast; norm_num))
  exact storePoint_eq_of hc1 hc2 hc3 hc4 hc5 hc6

/-- C9 counterexample: the generated point at cell (0,0) for the center
(40.000000005, -74.006) has latitude 39.955000005, which needs nine
fractional digits; its insert into DECIMAL(10,8) succeeds but stores the
rounded latitude 39.95500001, so the point read back differs from the
generated one. -/
theorem c9_counterexample :
    lossyPoint ∈ fetchSatelliteData 40.000000005 (-74.006) (fun _ => 0) "t0" ∧
    (storePoint lossyPoint).isSome = true ∧
    storePoint lossyPoint ≠ some lossyPoint := by
  refine ⟨?_, ?_, ?_⟩
  · exact mkPoint_mem_fetch 40.000000005 (-74.006) (fun _ => 0) "t0" 0 0
      (by norm_num) (by norm_num)
  · rw [storePoint_lossyPoint]
    rfl
  · rw [storePoint_lossyPoint]
    intro h
    have h2 := Option.some.inj h
    have h3 := congrArg SatelliteDataPoint.latitude h2
    have h4 : (3995500001 : ℚ) / 10 ^ 8 = lossyPoint.latitude := h3
    rw [lossyPoint_latitude] at h4
    norm_num at h4

lemma storePoint_samplePoint : storePoint samplePoint = some samplePoint := by
  have hv1 : samplePoint.latitude = ((4066780000 : ℤ) : ℚ) / 10 ^ 8 := by
    show (40.7128 : ℚ) - radius + ((0 : ℕ) : ℚ) * step = _
    push_cast
    norm_num [radius, step]
  have hc1 : pgStoreCol 10 8 samplePoint.latitude = some samplePoint.latitude := by
    rw [hv1]
    exact pgStoreCol_exact 10 8 _
      (by rw [abs_lt]; constructor <;> (push_cast; norm_num))
  have hv2 : samplePoint.longitude = ((-7405100000 : ℤ) : ℚ) / 10 ^ 8 := by
    show (-74.006 : ℚ) - radius + ((0 : ℕ) : ℚ) * step = _
    push_cast
    norm_num [radius, step]
  have hc2 : pgStoreCol 11 8 samplePoint.longitude = some samplePoint.longitude := by
    rw [hv2]
    exact pgStoreCol_exact 11 8 _
      (by rw [abs_lt]; constructor <;> (push_cast; norm_num))
  have hv3 : samplePoint.cloud_coverage = ((1500 : ℤ) : ℚ) / 10 ^ 2 := by
    show round2 ((1/2 : ℚ) * 30) = _
    rw [round2_eq ((1/2 : ℚ) * 30) 1500 (by norm_num) (by norm_num)]
    push_cast
    norm_num
  have hc3 : pgStoreCol 5 2 samplePoint.cloud_coverage =
      some samplePoint.cloud_coverage := by
    rw [hv3]
    exact pgStoreCol_exact 5 2 _
      (by rw [abs_lt]; constructor <;> (push_cast; norm_num))
  have hv4 : samplePoint.vegetation_index = ((50 : ℤ) : ℚ) / 10 ^ 2 := by
    show round2 ((0.2 : ℚ) + 1/2 * 0.6) = _
    rw [round2_eq ((0.2 : ℚ) + 1/2 * 0.6) 50 (by norm_num) (by norm_num)]
    push_cast
    norm_num
  have hc4 : pgStoreCol 5 2 samplePoint.vegetation_index =
      some samplePoint.vegetation_index := by
    rw [hv4]
    exact pgStoreCol_exact 5 2 _
      (by rw [abs_lt]; constructor <;> (push_cast; norm_num))
  have hv5 : samplePoint.water_index = ((-5 : ℤ) : ℚ) / 10 ^ 2 := by
    show round2 ((-0.3 : ℚ) + 1/2 * 0.5) = _
    rw [round2_eq ((-0.3 : ℚ) + 1/2 * 0.5) (-5) (by norm_num) (by norm_num)]
    push_cast
    norm_num
  have hc5 : pgStoreCol 5 2 samplePoint.water_index =
      some samplePoint.water_index := by
    rw [hv5]
    exact pgStoreCol_exact 5 2 _
      (by rw [abs_lt]; constructor <;> (push_cast; norm_num))
  have hv6 : samplePoint.temperature = ((2250 : ℤ) : ℚ) / 10 ^ 2 := by
    show round2 ((15 : ℚ) + 1/2 * 15) = _
    rw [round2_eq ((15 : ℚ) + 1/2 * 15) 2250 (by norm_num) (by norm_num)]
    push_cast
    norm_num
  have hc6 : pgStoreCol 6 2 samplePoint.temperature =
      some samplePoint.temperature := by
    rw [hv6]
    exact pgStoreCol_exact 6 2 _
      (by rw [abs_lt]; constructor <;> (push_cast; norm_num))
  exact storePoint_eq_of hc1 hc2 hc3 hc4 hc5 hc6

theorem c9_witness : storePoint samplePoint = some samplePoint :=
  storePoint_samplePoint.trans (congrArg some
    (c9_roundtrip_scale8 40.7128 (-74.006) rndHalf "t0" 4071280000 (-7400600000)
      (by push_cast; norm_num) (by push_cast; norm_num) samplePoint
      samplePoint_mem samplePoint storePoint_samplePoint))
